import Mathlib

/-!
Verification of the RAG backend (src/backend/src/rag.py, qdrant.py, app.py)
against its specification.

The Python modules are shallowly embedded below.  Pure string manipulation
(template formatting) is translated directly; the stateful vector store is
embedded as explicit state passing over a map from collection names to
collections; network calls (web fetch, embedding, vector search, LLM
completion) are parameters of the embedded pipelines, and the calls the
pipeline issues are recorded in an explicit effect trace.
-/

namespace RAG

/-! ## Template formatting (rag.py, load_prompt_template)

load_prompt_template reads the template file and runs Python
template.format(question=question).  Python str.format scans the template
left to right: a "\x7b\x7b" or "\x7d\x7d" pair is an escaped literal brace, a
lone unmatched brace raises ValueError, and a replacement field between
single braces is parsed as arg_name ("." attribute / "[" index "]")*
["!" conversion] [":" format_spec]; the keyword-argument lookup uses only
arg_name (so "\x7bquestion!r\x7d" or "\x7bquestion:>10\x7d" reference the supplied
question), and an arg_name other than question raises KeyError at that
field.  The embedding tokenizes the template first and then substitutes.
Deliberate modelling bounds, each turning only on behavior no theorem
below relies on: a template that is both malformed and contains an
unknown field reports the malformedness rather than the unknown field
(both are format errors); conversions and format specs are not
interpreted, so a field whose arg_name is question renders as the bare
question text (exact for plain fields, which is all the concrete
evaluations use) and an invalid conversion such as "!x" does not raise
the ValueError CPython would raise. -/

inductive Tok where
  | lit (c : Char)
  | field (name : String)
deriving DecidableEq

inductive FmtError where
  | keyError (key : String)
  | singleBrace
deriving DecidableEq

inductive FmtMode where
  | norm
  | field (acc : List Char)

/-- Tokenizer for Python format strings: literal characters, escaped braces,
and replacement fields.  A field token carries the raw text between the
braces; `FmtMode.field acc` means we are inside a replacement field
having read `acc` of that text. -/
def tokGo : FmtMode → List Char → Option (List Tok)
  | FmtMode.norm, [] => some []
  | FmtMode.norm, '{' :: '{' :: rest => (tokGo FmtMode.norm rest).map (fun ts => Tok.lit '{' :: ts)
  | FmtMode.norm, '}' :: '}' :: rest => (tokGo FmtMode.norm rest).map (fun ts => Tok.lit '}' :: ts)
  | FmtMode.norm, '{' :: rest => tokGo (FmtMode.field []) rest
  | FmtMode.norm, '}' :: _ => none
  | FmtMode.norm, c :: rest => (tokGo FmtMode.norm rest).map (fun ts => Tok.lit c :: ts)
  | FmtMode.field _, [] => none
  | FmtMode.field acc, '}' :: rest =>
      (tokGo FmtMode.norm rest).map (fun ts => Tok.field (String.mk acc) :: ts)
  | FmtMode.field acc, c :: rest => tokGo (FmtMode.field (acc ++ [c])) rest

def tokenize (s : String) : Option (List Tok) :=
  tokGo FmtMode.norm s.toList

/-- The lookup key of a replacement field: CPython's arg_name, the part
of the raw field text before any attribute access ("."), element index
("["), conversion ("!") or format spec (":").  str.format resolves this
key against the keyword arguments. -/
def argName (raw : String) : String :=
  String.mk (raw.toList.takeWhile
    (fun c => c != '.' && c != '[' && c != '!' && c != ':'))

/-- The lookup keys (arg_names) a tokenized template references. -/
def fieldNames (toks : List Tok) : List String :=
  toks.filterMap (fun t => match t with
    | Tok.field raw => some (argName raw)
    | Tok.lit _ => none)

/-- Substitution pass of template.format(question=question): a field whose
lookup key (arg_name) is question is replaced by the question text
(conversions and format specs are not interpreted - see the section
comment), and any field with another lookup key raises KeyError for that
key, as CPython's unconditional keyword lookup does, at the first such
field left to right. -/
def renderToks (question : String) : List Tok → Except FmtError (List Char)
  | [] => Except.ok []
  | Tok.lit c :: rest => (renderToks question rest).map (fun cs => c :: cs)
  | Tok.field raw :: rest =>
      if argName raw = "question" then
        (renderToks question rest).map (fun cs => question.toList ++ cs)
      else Except.error (FmtError.keyError (argName raw))

/-- template.format(question=question) from rag.py line 66. -/
def pyFormat (template question : String) : Except FmtError String :=
  match tokenize template with
  | none => Except.error FmtError.singleBrace
  | some toks => (renderToks question toks).map String.mk

inductive RagError where
  | templateNotFound (path : String)
  | templateFormatError (e : FmtError)
deriving DecidableEq

/-- load_prompt_template (rag.py lines 47-70): checks os.path.exists, reads
the file, formats it with the question; any formatting exception is logged
and re-raised.  The filesystem is embedded as a map from paths to file
contents. -/
def load_prompt_template (fs : String → Option String)
    (template_path question : String) : Except RagError String :=
  match fs template_path with
  | none => Except.error (RagError.templateNotFound template_path)
  | some template =>
      match pyFormat template question with
      | Except.error e => Except.error (RagError.templateFormatError e)
      | Except.ok s => Except.ok s

/-! ## The answer pipeline (rag.py, create_chain and get_answer)

qdrant.py binds the module-level vector store to the fixed collection
COLLECTION_NAME.  create_chain builds the chain; invoking it embeds the
question, searches the default collection, and calls the LLM.
vector_store.as_retriever() yields a retriever whose default search
kwargs request k = 4 results; the subsequent with_config(top_k=4) call
only attaches run-configuration metadata and does not change the search
kwargs, so the effective k is 4.  The remote calls are embedded as
function parameters (retrieve, llm) and the calls actually issued are
returned as an explicit trace. -/

def COLLECTION_NAME : String := "Wiki_2"

structure Chunk where
  text : String
  metadata : List (String × String)
deriving DecidableEq

inductive Effect where
  | embed (text : String)
  | search (collection : String) (k : Nat) (query : String)
  | llmCall (prompt : String)
deriving DecidableEq

structure Chain where
  prompt_template : String
  retriever_collection : String
  retriever_k : Nat
deriving DecidableEq

/-- create_chain (rag.py lines 72-109): loads and formats the template,
then wires retriever (default collection, k = 4) and LLM together.
Building the chain issues no remote call; any template error propagates. -/
def create_chain (fs : String → Option String)
    (template_path question : String) : Except RagError Chain :=
  match load_prompt_template fs template_path question with
  | Except.error e => Except.error e
  | Except.ok template_prompt =>
      Except.ok { prompt_template := template_prompt,
                  retriever_collection := COLLECTION_NAME,
                  retriever_k := 4 }

/-- chain.invoke(question): the retriever embeds the question and searches
the chain's collection with the chain's k; the rendered prompt goes to the
LLM (a template that survived load_prompt_template has no replacement
fields left, so the second ChatPromptTemplate stage leaves it unchanged).
Returns the LLM answer, the retrieved context, and the trace of remote
calls. -/
def chain_invoke (retrieve : String → Nat → String → List Chunk)
    (llm : String → String) (chain : Chain) (question : String) :
    (String × List Chunk) × List Effect :=
  ((llm chain.prompt_template,
    retrieve chain.retriever_collection chain.retriever_k question),
   [Effect.embed question,
    Effect.search chain.retriever_collection chain.retriever_k question,
    Effect.llmCall chain.prompt_template])

/-- get_answer (rag.py lines 111-135): builds the chain and invokes it,
returning the answer and retrieved context; on failure the error
propagates and no remote call has been made (empty trace). -/
def get_answer (fs : String → Option String)
    (retrieve : String → Nat → String → List Chunk) (llm : String → String)
    (question template_path : String) :
    Except RagError (String × List Chunk) × List Effect :=
  match create_chain fs template_path question with
  | Except.error e => (Except.error e, [])
  | Except.ok chain =>
      (Except.ok (chain_invoke retrieve llm chain question).1,
       (chain_invoke retrieve llm chain question).2)

/-! ## Chunk splitting (qdrant.py, text_splitter) -/

def chunk_size : Nat := 1000

def chunk_overlap : Nat := 20

/-- Modelled from the spec: qdrant.py configures
RecursiveCharacterTextSplitter(chunk_size=1000, chunk_overlap=20,
length_function=len), whose implementation is external library code not
in this repository.  Per spec section 4.3 it is a greedy splitter that
emits chunks of at most chunk_size characters with chunk_overlap
characters shared between consecutive chunks; the preferential breaking
at paragraph/sentence/word boundaries only moves the cut points, so the
model takes the hard character-cut branch.  The fuel argument (called
with the text length) only bounds the recursion and is never exhausted,
since every step consumes chunk_size - chunk_overlap > 0 characters. -/
def splitGo : Nat → List Char → List (List Char)
  | _, [] => []
  | 0, _ :: _ => []
  | fuel + 1, c :: cs =>
      if (c :: cs).length ≤ chunk_size then [c :: cs]
      else (c :: cs).take chunk_size ::
        splitGo fuel ((c :: cs).drop (chunk_size - chunk_overlap))

/-- Modelled from the spec: the split_text entry point of the configured
text_splitter (see splitGo). -/
def text_splitter (text : String) : List String :=
  (splitGo text.toList.length text.toList).map String.mk

/-- The text a chunk sequence covers: the first chunk in full, then each
later chunk minus its leading chunk_overlap characters (the part it
shares with its predecessor), i.e. the concatenation of the chunks'
unique spans. -/
def joinTail : List (List Char) → List Char
  | [] => []
  | c :: cs => c.drop chunk_overlap ++ joinTail cs

def joinChunks : List (List Char) → List Char
  | [] => []
  | c :: cs => c ++ joinTail cs

/-- Two consecutive chunks overlap in exactly the chunk_overlap trailing
characters of the first, which reappear as the leading characters of the
second. -/
def ovl (a b : List Char) : Prop :=
  b.take chunk_overlap = a.drop (a.length - chunk_overlap)

theorem splitGo_length_le (fuel : Nat) : ∀ cs : List Char, cs.length ≤ fuel →
    ∀ c ∈ splitGo fuel cs, c.length ≤ chunk_size := by
  induction fuel with
  | zero =>
      intro cs h c hc
      rw [List.eq_nil_of_length_eq_zero (Nat.le_zero.mp h)] at hc
      simp [splitGo] at hc
  | succ fuel ih =>
      intro cs h c hc
      cases cs with
      | nil => simp [splitGo] at hc
      | cons a as =>
          by_cases hlen : as.length + 1 ≤ chunk_size
          · simp [splitGo, hlen] at hc
            rw [hc]
            simpa using hlen
          · simp only [splitGo, List.length_cons, if_neg hlen, List.mem_cons] at hc
            rcases hc with hc | hc
            · rw [hc]
              simp [List.length_take]
            · refine ih _ ?_ c hc
              simp only [List.length_drop, List.length_cons] at *
              simp only [chunk_size, chunk_overlap] at *
              omega

theorem splitGo_joinTail (fuel : Nat) : ∀ cs : List Char, cs.length ≤ fuel →
    joinTail (splitGo fuel cs) = cs.drop chunk_overlap := by
  induction fuel with
  | zero =>
      intro cs h
      rw [List.eq_nil_of_length_eq_zero (Nat.le_zero.mp h)]
      simp [splitGo, joinTail]
  | succ fuel ih =>
      intro cs h
      cases cs with
      | nil => simp [splitGo, joinTail]
      | cons a as =>
          by_cases hlen : as.length + 1 ≤ chunk_size
          · simp [splitGo, hlen, joinTail]
          · have hdrop : ((a :: as).drop (chunk_size - chunk_overlap)).length ≤ fuel := by
              simp only [List.length_drop, List.length_cons] at *
              simp only [chunk_size, chunk_overlap] at *
              omega
            simp only [splitGo, List.length_cons, if_neg hlen, joinTail, ih _ hdrop]
            simp only [chunk_size, chunk_overlap]
            have e1 : (1000 : Nat) - 20 = 980 := by norm_num
            rw [e1, List.drop_take, e1, List.drop_drop]
            have e2 : (980 : Nat) + 20 = 1000 := by norm_num
            rw [e2]
            have H := List.take_append_drop 980 (List.drop 20 (a :: as))
            rw [List.drop_drop] at H
            have e3 : (20 : Nat) + 980 = 1000 := by norm_num
            rw [e3] at H
            exact H

theorem splitGo_joinChunks (fuel : Nat) (cs : List Char) (h : cs.length ≤ fuel) :
    joinChunks (splitGo fuel cs) = cs := by
  cases fuel with
  | zero =>
      rw [List.eq_nil_of_length_eq_zero (Nat.le_zero.mp h)]
      simp [splitGo, joinChunks]
  | succ fuel =>
      cases cs with
      | nil => simp [splitGo, joinChunks]
      | cons a as =>
          by_cases hlen : as.length + 1 ≤ chunk_size
          · simp [splitGo, hlen, joinChunks, joinTail]
          · have hdrop : ((a :: as).drop (chunk_size - chunk_overlap)).length ≤ fuel := by
              simp only [List.length_drop, List.length_cons] at *
              simp only [chunk_size, chunk_overlap] at *
              omega
            simp only [splitGo, List.length_cons, if_neg hlen, joinChunks,
              splitGo_joinTail fuel _ hdrop]
            simp only [chunk_size, chunk_overlap]
            have e1 : (1000 : Nat) - 20 = 980 := by norm_num
            rw [e1, List.drop_drop]
            have e2 : (980 : Nat) + 20 = 1000 := by norm_num
            rw [e2]
            exact List.take_append_drop 1000 _

theorem splitGo_head_take (fuel : Nat) (cs : List Char) (h : cs.length ≤ fuel)
    (hne : cs ≠ []) : ∃ b t, splitGo fuel cs = b :: t ∧
      b.take chunk_overlap = cs.take chunk_overlap := by
  cases fuel with
  | zero => exact absurd (List.eq_nil_of_length_eq_zero (Nat.le_zero.mp h)) hne
  | succ fuel =>
      cases cs with
      | nil => exact absurd rfl hne
      | cons a as =>
          by_cases hlen : as.length + 1 ≤ chunk_size
          · exact ⟨a :: as, [], by simp [splitGo, hlen], rfl⟩
          · refine ⟨(a :: as).take chunk_size,
              splitGo fuel ((a :: as).drop (chunk_size - chunk_overlap)),
              by simp [splitGo, hlen], ?_⟩
            rw [List.take_take]
            simp only [chunk_size, chunk_overlap]
            norm_num

theorem splitGo_chain' (fuel : Nat) : ∀ cs : List Char, cs.length ≤ fuel →
    List.Chain' ovl (splitGo fuel cs) := by
  induction fuel with
  | zero =>
      intro cs h
      rw [List.eq_nil_of_length_eq_zero (Nat.le_zero.mp h)]
      simp [splitGo]
  | succ fuel ih =>
      intro cs h
      cases cs with
      | nil => simp [splitGo]
      | cons a as =>
          by_cases hlen : as.length + 1 ≤ chunk_size
          · simp only [splitGo, List.length_cons, if_pos hlen]
            exact List.chain'_singleton _
          · have hdrop : ((a :: as).drop (chunk_size - chunk_overlap)).length ≤ fuel := by
              simp only [List.length_drop, List.length_cons] at *
              simp only [chunk_size, chunk_overlap] at *
              omega
            have hne : (a :: as).drop (chunk_size - chunk_overlap) ≠ [] := by
              rw [← List.length_pos, List.length_drop]
              simp only [List.length_cons] at *
              simp only [chunk_size, chunk_overlap] at *
              omega
            obtain ⟨b, t, hbt, hb⟩ := splitGo_head_take fuel _ hdrop hne
            simp only [splitGo, List.length_cons, if_neg hlen, hbt, List.chain'_cons]
            constructor
            · show b.take chunk_overlap =
                ((a :: as).take chunk_size).drop (((a :: as).take chunk_size).length - chunk_overlap)
              rw [hb, List.length_take]
              have hmin : chunk_size ⊓ (a :: as).length = chunk_size := by
                simp only [List.length_cons] at *
                simp only [chunk_size] at *
                omega
              rw [hmin, List.drop_take]
              simp only [chunk_size, chunk_overlap]
            · rw [← hbt]
              exact ih _ hdrop

/-! ## Vector store state (qdrant.py)

The remote Qdrant store is embedded as a map from collection names to
collections; a collection records the vector size and distance metric
fixed at creation plus the stored chunks.  The Qdrant server rejects
creation of an existing collection and insertion into a missing one
(spec sections 4.2 and 7); the wrappers in qdrant.py catch, log and
re-raise every such error, so the embedding returns it to the caller. -/

inductive Distance where
  | cosine
deriving DecidableEq

structure Collection where
  vector_size : Nat
  distance : Distance
  chunks : List Chunk
deriving DecidableEq

def Store : Type := String → Option Collection

inductive IngestError where
  | collectionAlreadyExists (name : String)
  | collectionNotFound (name : String)
  | fetchError (url : String)
deriving DecidableEq

/-- create_collection (qdrant.py lines 48-70): asks the store to allocate
a fresh collection with the given vector size and cosine distance; the
remote call fails when the collection already exists and the wrapper
re-raises the failure.  vector_size defaults to 1536 at every call site. -/
def create_collection (store : Store) (collection_name : String)
    (vector_size : Nat) : Except IngestError Store :=
  match store collection_name with
  | some _ => Except.error (IngestError.collectionAlreadyExists collection_name)
  | none => Except.ok (fun n =>
      if n = collection_name then
        some { vector_size := vector_size, distance := Distance.cosine, chunks := [] }
      else store n)

/-- Metadata assignment doc.metadata["source_url"] = url: overwrites any
existing binding for the key. -/
def setMeta (m : List (String × String)) (key val : String) :
    List (String × String) :=
  (key, val) :: m.filter (fun p => p.1 != key)

/-- The documents upload_documents builds from a fetched page: the page
text is split by text_splitter (WebBaseLoader.load_and_split), each chunk
starts with the loader's source metadata and is then tagged with
source_url = url by the loop in qdrant.py lines 96-98. -/
def prepareDocuments (url text : String) : List Chunk :=
  (text_splitter text).map (fun t =>
    { text := t, metadata := setMeta [("source", url)] "source_url" url })

/-- upload_documents (qdrant.py lines 72-107): fetches the url (the web
fetch is the parameter fetch; a network/HTTP failure is fetch url = none
and the exception propagates), splits the page, tags every chunk with
source_url, and appends the chunks to the named collection (add_documents
fails when the collection does not exist).  Returns the outcome together
with the post-state of the store; on failure the store is unchanged. -/
def upload_documents (fetch : String → Option String) (store : Store)
    (url collection_name : String) : Except IngestError Unit × Store :=
  match fetch url with
  | none => (Except.error (IngestError.fetchError url), store)
  | some text =>
      match store collection_name with
      | none => (Except.error (IngestError.collectionNotFound collection_name), store)
      | some coll =>
          (Except.ok (),
           fun n =>
             if n = collection_name then
               some { coll with chunks := coll.chunks ++ prepareDocuments url text }
             else store n)

inductive ApiResult where
  | success (message : String)
  | serverError (e : IngestError)
deriving DecidableEq

/-- upload_documents_endpoint (app.py lines 91-117): unconditionally calls
create_collection(collection_name) (vector size left at its default 1536)
and then upload_documents; any exception from either step is caught and
returned as an HTTP 500 server error. -/
def upload_documents_endpoint (fetch : String → Option String)
    (store : Store) (url collection_name : String) : ApiResult × Store :=
  match create_collection store collection_name 1536 with
  | Except.error e => (ApiResult.serverError e, store)
  | Except.ok store1 =>
      match upload_documents fetch store1 url collection_name with
      | (Except.error e, store2) => (ApiResult.serverError e, store2)
      | (Except.ok _, store2) =>
          (ApiResult.success ("Documents from '" ++ url ++
            "' uploaded successfully to collection '" ++ collection_name ++ "'."),
           store2)

/-- Number of chunks stored in a named collection. -/
def chunkCount (store : Store) (collection_name : String) : Nat :=
  match store collection_name with
  | none => 0
  | some coll => coll.chunks.length

/-! ## The /api/rag response assembly (app.py, chatbot_endpoint) -/

structure QueryResponse where
  answer : String
  context : String
deriving DecidableEq

/-- Python dict.get(key, default) over the embedded dictionary. -/
def dictGet (d : List (String × String)) (key dflt : String) : String :=
  match List.lookup key d with
  | some v => v
  | none => dflt

/-- Response assembly of chatbot_endpoint (app.py lines 66-75): answer =
response_data.get("answer", ""), context = response_data.get("context",
""), returned with HTTP status 200.  It is a total function of the
response dictionary: no key lookup can fail. -/
def chatbot_response (response_data : List (String × String)) :
    Nat × QueryResponse :=
  (200, { answer := dictGet response_data "answer" "",
          context := dictGet response_data "context" "" })

/-! ## Auxiliary lemmas and shared witnesses -/

theorem fieldNames_nil : fieldNames [] = [] := rfl

theorem fieldNames_lit (c : Char) (rest : List Tok) :
    fieldNames (Tok.lit c :: rest) = fieldNames rest := rfl

theorem fieldNames_field (f : String) (rest : List Tok) :
    fieldNames (Tok.field f :: rest) = argName f :: fieldNames rest := rfl

theorem renderToks_unknown_field (question : String) :
    ∀ toks : List Tok, ∀ n ∈ fieldNames toks, n ≠ "question" →
      ∃ m, m ≠ "question" ∧
        renderToks question toks = Except.error (FmtError.keyError m) := by
  intro toks
  induction toks with
  | nil =>
      intro n hn
      simp [fieldNames_nil] at hn
  | cons t rest ih =>
      intro n hn hnq
      cases t with
      | lit c =>
          rw [fieldNames_lit] at hn
          obtain ⟨m, hm, he⟩ := ih n hn hnq
          exact ⟨m, hm, by simp [renderToks, he, Except.map]⟩
      | field f =>
          by_cases hf : argName f = "question"
          · rw [fieldNames_field] at hn
            rcases List.mem_cons.mp hn with h | h
            · exact absurd (h.trans hf) hnq
            · obtain ⟨m, hm, he⟩ := ih n h hnq
              exact ⟨m, hm, by simp [renderToks, hf, he, Except.map]⟩
          · exact ⟨argName f, hf, by simp [renderToks, hf]⟩

theorem create_chain_fields (fs : String → Option String)
    (template_path question : String) (chain : Chain)
    (h : create_chain fs template_path question = Except.ok chain) :
    chain.retriever_collection = COLLECTION_NAME ∧ chain.retriever_k = 4 := by
  unfold create_chain at h
  cases hl : load_prompt_template fs template_path question with
  | error e =>
      rw [hl] at h
      cases h
  | ok tp =>
      rw [hl] at h
      injection h with h2
      rw [← h2]
      exact ⟨rfl, rfl⟩

/-- A store holding one empty collection named c1, used as the concrete
pre-state of several witnesses. -/
def sampleStore : Store := fun n =>
  if n = "c1" then
    some { vector_size := 1536, distance := Distance.cosine, chunks := [] }
  else none

def c4_fetch : String → Option String := fun _ => some "Basic arithmetic: 2+2=4."

/-- Store after the first upload of the sample page into c1 through the
upload endpoint. -/
def c4_store1 : Store :=
  (upload_documents_endpoint c4_fetch (fun _ => none) "https://example.com/a" "c1").2

/-- Store after uploading the same page into c1 through the upload
endpoint a second time. -/
def c4_store2 : Store :=
  (upload_documents_endpoint c4_fetch c4_store1 "https://example.com/a" "c1").2

/-- Store after a successful createCollection("test", 1536, cosine) on an
empty store. -/
def c7_store1 : Store := fun n =>
  if n = "test" then
    some { vector_size := 1536, distance := Distance.cosine, chunks := [] }
  else none

def c8_fs : String → Option String := fun _ => some "Q: {question}"

/-! ## Claims -/

/-- C1: the claim expects that for the template text
"Context: {context}\nQuestion: {question}\nAnswer:" and the question
"What is 2+2?" the pipeline assembles a prompt containing the question
and the retrieved context verbatim.  The code does the opposite:
template.format(question=question) in load_prompt_template raises
KeyError for the unsupplied context field, so get_answer aborts with a
template-format error, no remote call is made (empty trace), and no
prompt is ever submitted to the LLM. -/
theorem c1_context_template_fails :
    get_answer
      (fun p => if p = "prompt_template.txt"
        then some "Context: {context}\nQuestion: {question}\nAnswer:" else none)
      (fun _ _ _ => [{ text := "Basic arithmetic: 2+2=4.", metadata := [] }])
      (fun _ => "4")
      "What is 2+2?" "prompt_template.txt"
    = (Except.error (RagError.templateFormatError (FmtError.keyError "context")), []) := rfl

/-- C2: for every template path absent from the filesystem, get_answer
fails with the template-not-found error and the effect trace is empty:
no embedding, no vector search, and no LLM call happen before the
failure. -/
theorem c2_missing_template_no_side_effects
    (fs : String → Option String) (retrieve : String → Nat → String → List Chunk)
    (llm : String → String) (question template_path : String)
    (h : fs template_path = none) :
    get_answer fs retrieve llm question template_path
      = (Except.error (RagError.templateNotFound template_path), []) := by
  simp [get_answer, create_chain, load_prompt_template, h]

theorem c2_witness :
    get_answer (fun _ => none) (fun _ _ _ => []) (fun _ => "") "q" "missing.txt"
      = (Except.error (RagError.templateNotFound "missing.txt"), []) :=
  c2_missing_template_no_side_effects _ _ _ _ _ rfl

/-- C3: for every existing template file that references a placeholder
whose lookup key (arg_name) is not question - an unknown placeholder,
which CPython's unconditional keyword lookup always rejects -
load_prompt_template fails with a template-format error instead of
returning a rendered prompt.  (In the model the failure is the KeyError
of some unknown key; CPython can also fail earlier at an invalid
conversion, so only the existence of a format error is asserted.) -/
theorem c3_unknown_placeholder_fails
    (fs : String → Option String) (template_path question tpl : String)
    (toks : List Tok) (n : String)
    (hfs : fs template_path = some tpl)
    (htok : tokenize tpl = some toks)
    (hmem : n ∈ fieldNames toks) (hn : n ≠ "question") :
    ∃ e, load_prompt_template fs template_path question
        = Except.error (RagError.templateFormatError e) := by
  obtain ⟨m, _, he⟩ := renderToks_unknown_field question toks n hmem hn
  exact ⟨FmtError.keyError m,
    by simp [load_prompt_template, hfs, pyFormat, htok, he, Except.map]⟩

theorem c3_witness :
    ∃ e, load_prompt_template (fun _ => some "{context}") "p" "q"
        = Except.error (RagError.templateFormatError e) :=
  c3_unknown_placeholder_fails (fun _ => some "{context}") "p" "q" "{context}"
    [Tok.field "context"] "context" rfl rfl (by decide) (by decide)

/-- C4 counterexample: ingesting the same URL twice into the same
collection through the upload path does not increase the chunk count the
second time.  The endpoint calls create_collection on every request; the
second request finds the collection already exists, the creation error is
caught and returned as HTTP 500 before upload_documents runs, and the
store is unchanged: the count after the second ingest equals the count
after the first (here 1), refuting count2 >= count1 + 1. -/
theorem c4_counterexample :
    ¬ (chunkCount c4_store2 "c1" ≥ chunkCount c4_store1 "c1" + 1) := by decide

/-- C4 amended: re-ingestion does not de-duplicate, but the strict
increase holds only when upload_documents is actually reached and the
fetched page yields at least one chunk: a direct upload_documents call on
an existing collection with a successfully fetched document that splits
into at least one chunk raises the stored chunk count by at least one,
while a request through the upload endpoint for an existing collection
fails at create_collection with CollectionAlreadyExists and leaves the
store unchanged. -/
theorem c4_amended
    (fetch : String → Option String) (store : Store)
    (url collection_name text : String) (coll : Collection)
    (hf : fetch url = some text) (hc : store collection_name = some coll)
    (hne : text_splitter text ≠ []) :
    chunkCount (upload_documents fetch store url collection_name).2 collection_name
      ≥ chunkCount store collection_name + 1 ∧
    (upload_documents_endpoint fetch store url collection_name).1
      = ApiResult.serverError (IngestError.collectionAlreadyExists collection_name) ∧
    (upload_documents_endpoint fetch store url collection_name).2 = store := by
  refine ⟨?_, ?_, ?_⟩
  · have hpos : 0 < (text_splitter text).length := List.length_pos.mpr hne
    simp [upload_documents, hf, hc, chunkCount, prepareDocuments]
    omega
  · simp [upload_documents_endpoint, create_collection, hc]
  · simp [upload_documents_endpoint, create_collection, hc]

theorem c4_witness :
    chunkCount (upload_documents (fun _ => some "hello") sampleStore
        "https://example.com/a" "c1").2 "c1"
      ≥ chunkCount sampleStore "c1" + 1 ∧
    (upload_documents_endpoint (fun _ => some "hello") sampleStore
        "https://example.com/a" "c1").1
      = ApiResult.serverError (IngestError.collectionAlreadyExists "c1") ∧
    (upload_documents_endpoint (fun _ => some "hello") sampleStore
        "https://example.com/a" "c1").2 = sampleStore :=
  c4_amended (fun _ => some "hello") sampleStore "https://example.com/a" "c1" "hello"
    { vector_size := 1536, distance := Distance.cosine, chunks := [] }
    rfl rfl (by decide)

/-- C5: for every document text, the splitter produces chunks of at most
chunk_size = 1000 characters; consecutive chunks overlap in the
chunk_overlap = 20 boundary characters (each chunk after the first starts
with the trailing 20 characters of its predecessor, so nothing is
duplicated beyond the overlap window); and concatenating the chunks'
unique non-overlapping spans (joinChunks) reconstructs the document text
exactly, so no text is dropped. -/
theorem c5_split_lossless (text : String) :
    (∀ c ∈ text_splitter text, c.length ≤ chunk_size) ∧
    joinChunks ((text_splitter text).map String.toList) = text.toList ∧
    List.Chain' ovl ((text_splitter text).map String.toList) := by
  have hid : String.toList ∘ String.mk = id := funext (fun _ => rfl)
  have hmap : (text_splitter text).map String.toList
      = splitGo text.toList.length text.toList := by
    simp [text_splitter, List.map_map, hid]
  refine ⟨?_, ?_, ?_⟩
  · intro c hc
    simp only [text_splitter, List.mem_map] at hc
    obtain ⟨cs, hcs, rfl⟩ := hc
    exact splitGo_length_le _ _ (le_refl _) cs hcs
  · rw [hmap]
    exact splitGo_joinChunks _ _ (le_refl _)
  · rw [hmap]
    exact splitGo_chain' _ _ (le_refl _)

/-- C6: every chunk a successful upload_documents call inserts into the
collection carries metadata with source_url equal to the ingested url:
the collection afterwards holds its old chunks plus the prepared
documents, each of which looks up source_url to the url. -/
theorem c6_source_url_invariant
    (fetch : String → Option String) (store : Store)
    (url collection_name text : String) (coll : Collection)
    (hf : fetch url = some text) (hc : store collection_name = some coll) :
    ∃ coll',
      (upload_documents fetch store url collection_name).2 collection_name = some coll' ∧
      coll'.chunks = coll.chunks ++ prepareDocuments url text ∧
      ∀ d ∈ prepareDocuments url text,
        List.lookup "source_url" d.metadata = some url := by
  have h2 : (upload_documents fetch store url collection_name).2 collection_name
      = some { coll with chunks := coll.chunks ++ prepareDocuments url text } := by
    simp [upload_documents, hf, hc]
  refine ⟨_, h2, rfl, ?_⟩
  intro d hd
  simp only [prepareDocuments, List.mem_map] at hd
  obtain ⟨t, _, rfl⟩ := hd
  simp [setMeta, List.lookup]

theorem c6_witness :
    ∃ coll',
      (upload_documents (fun _ => some "hello") sampleStore
        "https://example.com/a" "c1").2 "c1" = some coll' ∧
      coll'.chunks = [] ++ prepareDocuments "https://example.com/a" "hello" ∧
      ∀ d ∈ prepareDocuments "https://example.com/a" "hello",
        List.lookup "source_url" d.metadata = some "https://example.com/a" :=
  c6_source_url_invariant (fun _ => some "hello") sampleStore "https://example.com/a"
    "c1" "hello" { vector_size := 1536, distance := Distance.cosine, chunks := [] }
    rfl rfl

/-- C7: calling create_collection for a name that already exists in the
store fails with CollectionAlreadyExists, and the wrapper re-raises the
error to the caller; the witness instantiates the scenario of a second
identical createCollection("test", 1536, cosine) call immediately after a
successful first one. -/
theorem c7_create_existing_fails (store : Store) (name : String)
    (vector_size : Nat) (coll : Collection) (h : store name = some coll) :
    create_collection store name vector_size
      = Except.error (IngestError.collectionAlreadyExists name) := by
  simp [create_collection, h]

theorem c7_witness :
    create_collection (fun _ => none) "test" 1536 = Except.ok c7_store1 ∧
    create_collection c7_store1 "test" 1536
      = Except.error (IngestError.collectionAlreadyExists "test") :=
  ⟨rfl, c7_create_existing_fails _ _ _ _ rfl⟩

/-- C8: every vector search the answer pipeline issues requests exactly
the top 4 chunks from the configured default collection, for all caller
input (question and template path): any search effect in the get_answer
trace has collection COLLECTION_NAME and k = 4. -/
theorem c8_retrieval_topk
    (fs : String → Option String) (retrieve : String → Nat → String → List Chunk)
    (llm : String → String) (question template_path : String)
    (c : String) (k : Nat) (q : String)
    (h : Effect.search c k q ∈ (get_answer fs retrieve llm question template_path).2) :
    c = COLLECTION_NAME ∧ k = 4 := by
  unfold get_answer at h
  cases hcc : create_chain fs template_path question with
  | error e =>
      rw [hcc] at h
      simp at h
  | ok chain =>
      obtain ⟨h1, h2⟩ := create_chain_fields _ _ _ _ hcc
      rw [hcc] at h
      simp [chain_invoke] at h
      exact ⟨h.1.trans h1, h.2.1.trans h2⟩

theorem c8_witness :
    Effect.search "Wiki_2" 4 "hi"
      ∈ (get_answer c8_fs (fun _ _ _ => []) (fun _ => "") "hi" "p").2 ∧
    ("Wiki_2" = COLLECTION_NAME ∧ 4 = 4) := by
  have hm : Effect.search "Wiki_2" 4 "hi"
      ∈ (get_answer c8_fs (fun _ _ _ => []) (fun _ => "") "hi" "p").2 := by decide
  exact ⟨hm, c8_retrieval_topk _ _ _ _ _ _ _ _ hm⟩

/-- C9: when the fetch of a URL fails, upload_documents fails with the
fetch error and the store is returned unchanged: zero chunks are
inserted into the collection. -/
theorem c9_fetch_failure_atomic
    (fetch : String → Option String) (store : Store) (url collection_name : String)
    (h : fetch url = none) :
    (upload_documents fetch store url collection_name).1
      = Except.error (IngestError.fetchError url) ∧
    (upload_documents fetch store url collection_name).2 = store := by
  simp [upload_documents, h]

theorem c9_witness :
    (upload_documents (fun _ => none) sampleStore "https://example.com/missing" "c1").1
      = Except.error (IngestError.fetchError "https://example.com/missing") ∧
    (upload_documents (fun _ => none) sampleStore "https://example.com/missing" "c1").2
      = sampleStore :=
  c9_fetch_failure_atomic _ _ _ _ rfl

/-- C10: the /api/rag endpoint builds its response with
response_data.get("answer", "") and response_data.get("context", ""):
for every result dictionary it returns status 200 (no lookup can raise),
and whichever of the two keys is missing comes back as the empty string
in that field. -/
theorem c10_missing_key_defaults (response_data : List (String × String)) :
    (chatbot_response response_data).1 = 200 ∧
    (List.lookup "answer" response_data = none →
      (chatbot_response response_data).2.answer = "") ∧
    (List.lookup "context" response_data = none →
      (chatbot_response response_data).2.context = "") := by
  refine ⟨rfl, fun h => ?_, fun h => ?_⟩
  · simp [chatbot_response, dictGet, h]
  · simp [chatbot_response, dictGet, h]

theorem c10_witness :
    (chatbot_response [("context", "ctx")]).1 = 200 ∧
    (chatbot_response [("context", "ctx")]).2.answer = "" ∧
    (chatbot_response [("answer", "a")]).2.context = "" :=
  ⟨(c10_missing_key_defaults [("context", "ctx")]).1,
   (c10_missing_key_defaults [("context", "ctx")]).2.1 rfl,
   (c10_missing_key_defaults [("answer", "a")]).2.2 rfl⟩

end RAG
